import Mathlib

/-!
Shallow embedding of `barbican/plugin/interface/secret_store.py`
(the plugin-dispatch core of the barbican secret-management gateway).

Pure data and classification logic (`SecretType`, `KeyAlgorithm`,
`KeySpec`) are translated directly.  A backend plugin instance
(`ext.obj` in the manager's `self.extensions` list) is modelled by the
`SecretStore` structure carrying its stable identity and its capability
predicates; the manager's registered-backend list is a `List SecretStore`.
Exceptions raised by the manager become constructors of
`BarbicanException`, and the selection operations return
`Except BarbicanException SecretStore`.
-/

namespace SecretType

/-- Constant to define the symmetric key type. -/
def SYMMETRIC : String := "symmetric"

/-- Constant to define the public key type. -/
def PUBLIC : String := "public"

/-- Constant to define the private key type. -/
def PRIVATE : String := "private"

end SecretType

/-- Python's `str.lower()` on the ASCII algorithm identifiers this module
compares: lower-case every character.  (Defined by a structural map over
the characters so that it evaluates inside the kernel.) -/
def string_lower (s : String) : String :=
  ⟨s.data.map Char.toLower⟩

namespace KeyAlgorithm

/-- Constant for the Diffie Hellman algorithm. -/
def DIFFIE_HELLMAN : String := "diffie_hellman"

/-- Constant for the DSA algorithm. -/
def DSA : String := "dsa"

/-- Constant for the RSA algorithm. -/
def RSA : String := "rsa"

/-- Constant for the Elliptic Curve algorithm. -/
def EC : String := "ec"

/-- Constant for the HMACSHA1 algorithm. -/
def HMACSHA1 : String := "hmacsha1"

/-- Constant for the HMACSHA256 algorithm. -/
def HMACSHA256 : String := "hmacsha256"

/-- Constant named `HMACSHA348` in the source, with value `"hmacsha348"`. -/
def HMACSHA348 : String := "hmacsha348"

/-- Constant for the HMACSHA512 algorithm. -/
def HMACSHA512 : String := "hmacsha512"

/-- List of asymmetric algorithms. -/
def ASYMMETRIC_ALGORITHMS : List String := [DIFFIE_HELLMAN, DSA, RSA, EC]

/-- Constant for the AES algorithm. -/
def AES : String := "aes"

/-- Constant for the DES algorithm. -/
def DES : String := "des"

/-- Constant for the DESede (triple-DES) algorithm. -/
def DESEDE : String := "desede"

/-- List of symmetric algorithms, exactly as the source writes it. -/
def SYMMETRIC_ALGORITHMS : List String :=
  [AES, DES, DESEDE, HMACSHA1, HMACSHA256, HMACSHA348, HMACSHA512]

/-- Translation of `KeyAlgorithm.get_secret_type`.  A Python `None` (or
non-string) argument is modelled as `none`, and the truthiness test
`if alg and ...` additionally rejects the empty string.  The implicit
`return None` of the Python method is the `none` result. -/
def get_secret_type (alg : Option String) : Option String :=
  match alg with
  | none => none
  | some a =>
    if a = "" then none
    else if SYMMETRIC_ALGORITHMS.contains (string_lower a) then
      some SecretType.SYMMETRIC
    else none

end KeyAlgorithm

/-- Translation of `KeySpec`: the algorithm and bit length (and mode and
passphrase) for a key; every field may be `None` in the source. -/
structure KeySpec where
  alg : Option String
  bit_length : Option Nat
  mode : Option String
  passphrase : Option String

/-- A backend plugin instance, i.e. the `ext.obj` held by the manager.
`fullname` is the value the identity function `generate_fullname_for`
computes for this instance.  The capability predicates
`store_secret_supports` and `generate_supports` are abstract in
`SecretStoreBase` and supplied by each backend, so here they are fields.
`get_transport_key` and `is_transport_key_current` have concrete default
bodies in `SecretStoreBase` (`return None` and `return False`); these
defaults are the structure's default field values, which a backend
overrides by giving the field explicitly. -/
structure SecretStore where
  fullname : String
  store_secret_supports : KeySpec → Bool
  generate_supports : KeySpec → Bool
  get_transport_key : Option String := none
  is_transport_key_current : String → Bool := fun _ => false

/-- Modelled from the spec: `barbican.common.utils.generate_fullname_for`
is imported from `barbican.common.utils`, which is not part of the
source tree; per the spec it computes the backend's "stable
fully-qualified name" (its identity), so it is modelled as reading the
backend's identity field. -/
def generate_fullname_for (obj : SecretStore) : String :=
  obj.fullname

/-- The exceptions of `secret_store.py` that the plugin manager (or, for
`SecretAlgorithmNotSupportedException`, its caller) raises, with the
structured context each class carries. -/
inductive BarbicanException where
  | SecretStorePluginNotFound (plugin_name : Option String)
  | SecretStoreSupportedPluginNotFound
  | SecretStorePluginsNotConfigured
  | SecretAlgorithmNotSupportedException (algorithm : String)
deriving DecidableEq

/-- Translation of the `_enforce_extensions_configured` decorator: before
running the wrapped plugin-related function it checks
`len(self.extensions) < 1` and raises `SecretStorePluginsNotConfigured`. -/
def _enforce_extensions_configured
    (plugin_related_function : List SecretStore → Except BarbicanException SecretStore)
    (extensions : List SecretStore) : Except BarbicanException SecretStore :=
  if extensions.length < 1 then
    Except.error BarbicanException.SecretStorePluginsNotConfigured
  else
    plugin_related_function extensions

/-- Body of `SecretStorePluginManager.get_plugin_store` (inside the
decorator).  Each Python `for`/`if`/`return` loop is a `List.find?` over
`self.extensions`; falling off the end of the chosen loop reaches the
trailing `raise SecretStoreSupportedPluginNotFound()`. -/
def get_plugin_store_body (key_spec : KeySpec) (plugin_name : Option String)
    (transport_key_needed : Bool) (extensions : List SecretStore) :
    Except BarbicanException SecretStore :=
  match plugin_name with
  | some name =>
    match extensions.find? (fun ext => generate_fullname_for ext == name) with
    | some ext => Except.ok ext
    | none => Except.error (BarbicanException.SecretStorePluginNotFound (some name))
  | none =>
    if !transport_key_needed then
      match extensions.find? (fun ext => ext.store_secret_supports key_spec) with
      | some ext => Except.ok ext
      | none => Except.error BarbicanException.SecretStoreSupportedPluginNotFound
    else
      match extensions.find? (fun ext =>
          ext.get_transport_key.isSome && ext.store_secret_supports key_spec) with
      | some ext => Except.ok ext
      | none => Except.error BarbicanException.SecretStoreSupportedPluginNotFound

/-- `SecretStorePluginManager.get_plugin_store`, decorator included. -/
def get_plugin_store (extensions : List SecretStore) (key_spec : KeySpec)
    (plugin_name : Option String) (transport_key_needed : Bool) :
    Except BarbicanException SecretStore :=
  _enforce_extensions_configured
    (get_plugin_store_body key_spec plugin_name transport_key_needed) extensions

/-- Body of `SecretStorePluginManager.get_plugin_retrieve_delete`. -/
def get_plugin_retrieve_delete_body (plugin_name : String)
    (extensions : List SecretStore) : Except BarbicanException SecretStore :=
  match extensions.find? (fun ext => generate_fullname_for ext == plugin_name) with
  | some ext => Except.ok ext
  | none => Except.error (BarbicanException.SecretStorePluginNotFound (some plugin_name))

/-- `SecretStorePluginManager.get_plugin_retrieve_delete`, decorator included. -/
def get_plugin_retrieve_delete (extensions : List SecretStore)
    (plugin_name : String) : Except BarbicanException SecretStore :=
  _enforce_extensions_configured
    (get_plugin_retrieve_delete_body plugin_name) extensions

/-- Body of `SecretStorePluginManager.get_plugin_generate`. -/
def get_plugin_generate_body (key_spec : KeySpec)
    (extensions : List SecretStore) : Except BarbicanException SecretStore :=
  match extensions.find? (fun ext => ext.generate_supports key_spec) with
  | some ext => Except.ok ext
  | none => Except.error BarbicanException.SecretStoreSupportedPluginNotFound

/-- `SecretStorePluginManager.get_plugin_generate`, decorator included. -/
def get_plugin_generate (extensions : List SecretStore) (key_spec : KeySpec) :
    Except BarbicanException SecretStore :=
  _enforce_extensions_configured (get_plugin_generate_body key_spec) extensions

/-- Modelled from the spec: the code that raises
`SecretAlgorithmNotSupportedException` is not in the source tree (only
the exception class is declared there); the spec's error table says it
is raised "when the requested algorithm is unrecognized by the
classification logic", carrying the offending algorithm string, so the
check is modelled as classifying through `KeyAlgorithm.get_secret_type`
and raising on an unknown result. -/
def check_algorithm_supported (algorithm : String) :
    Except BarbicanException String :=
  match KeyAlgorithm.get_secret_type (some algorithm) with
  | some secret_type => Except.ok secret_type
  | none => Except.error
      (BarbicanException.SecretAlgorithmNotSupportedException algorithm)

/-! Helper lemmas shared by the claim theorems. -/

/-- If the extension list is non-empty, the `_enforce_extensions_configured`
guard passes and each selection operation runs its body. -/
lemma get_plugin_store_of_ne_nil (extensions : List SecretStore)
    (key_spec : KeySpec) (plugin_name : Option String)
    (transport_key_needed : Bool) (h : extensions ≠ []) :
    get_plugin_store extensions key_spec plugin_name transport_key_needed =
      get_plugin_store_body key_spec plugin_name transport_key_needed
        extensions := by
  unfold get_plugin_store _enforce_extensions_configured
  rw [if_neg]
  simpa [Nat.lt_one_iff, List.length_eq_zero] using h

lemma get_plugin_generate_of_ne_nil (extensions : List SecretStore)
    (key_spec : KeySpec) (h : extensions ≠ []) :
    get_plugin_generate extensions key_spec =
      get_plugin_generate_body key_spec extensions := by
  unfold get_plugin_generate _enforce_extensions_configured
  rw [if_neg]
  simpa [Nat.lt_one_iff, List.length_eq_zero] using h

/-- Classification returns `none` for every string whose lower-casing is
outside `SYMMETRIC_ALGORITHMS`. -/
lemma get_secret_type_eq_none_of_not_mem (s : String)
    (h : string_lower s ∉ KeyAlgorithm.SYMMETRIC_ALGORITHMS) :
    KeyAlgorithm.get_secret_type (some s) = none := by
  have heq : KeyAlgorithm.get_secret_type (some s) =
      if s = "" then none
      else if KeyAlgorithm.SYMMETRIC_ALGORITHMS.contains (string_lower s) then
        some SecretType.SYMMETRIC
      else none := rfl
  rw [heq]
  by_cases he : s = ""
  · simp [he]
  · simp [he, h]

/-- A `find?` over a list that contains a satisfying element `a` succeeds,
and its result lies no later than `a` does. -/
lemma find?_append_cons_of_pos {α : Type} (p : α → Bool) (l1 t : List α)
    (a : α) (ha : p a = true) :
    ∃ c, (l1 ++ a :: t).find? p = some c ∧ c ∈ l1 ++ [a] ∧ p c = true := by
  induction l1 with
  | nil => exact ⟨a, List.find?_cons_of_pos t ha, by simp, ha⟩
  | cons x l ih =>
    by_cases hx : p x
    · exact ⟨x, by simp [List.find?_cons_of_pos, hx], by simp, hx⟩
    · obtain ⟨c, hc1, hc2, hc3⟩ := ih
      refine ⟨c, ?_, by simp [hc2], hc3⟩
      simpa [List.find?_cons_of_neg, hx] using hc1

/-! Concrete backends and key specs used by the witnesses. -/

/-- All-`none` key spec. -/
def ks0 : KeySpec := ⟨none, none, none, none⟩

/-- Key spec requesting algorithm `"aes"`. -/
def key_spec_aes : KeySpec := ⟨some "aes", none, none, none⟩

/-- Key spec requesting algorithm `"ec"`. -/
def key_spec_ec : KeySpec := ⟨some "ec", none, none, none⟩

/-- Backend named `"one"` supporting nothing, with no transport key. -/
def plugin_one : SecretStore :=
  { fullname := "one", store_secret_supports := fun _ => false,
    generate_supports := fun _ => false }

/-- Backend named `"two"` supporting everything, with a transport key. -/
def plugin_two : SecretStore :=
  { fullname := "two", store_secret_supports := fun _ => true,
    generate_supports := fun _ => true, get_transport_key := some "tk" }

/-- Backend that supports storing but has no transport key. -/
def plugin_no_tk : SecretStore :=
  { fullname := "ntk", store_secret_supports := fun _ => true,
    generate_supports := fun _ => false }

/-- Backend `A` of the C5 scenario: generates only RSA keys. -/
def plugin_rsa_only : SecretStore :=
  { fullname := "A", store_secret_supports := fun _ => false,
    generate_supports := fun ks => ks.alg == some "rsa" }

/-- Backend `B` of the C5 scenario: generates only AES keys. -/
def plugin_aes_only : SecretStore :=
  { fullname := "B", store_secret_supports := fun _ => false,
    generate_supports := fun ks => ks.alg == some "aes" }

/-- First of two backends that support every capability. -/
def plugin_both_one : SecretStore :=
  { fullname := "b1", store_secret_supports := fun _ => true,
    generate_supports := fun _ => true }

/-- Second of two backends that support every capability. -/
def plugin_both_two : SecretStore :=
  { fullname := "b2", store_secret_supports := fun _ => true,
    generate_supports := fun _ => true }

/-! Claim theorems. -/

/-- C2: with zero registered backends, `get_plugin_store`,
`get_plugin_retrieve_delete` and `get_plugin_generate` all fail with
`SecretStorePluginsNotConfigured` — for every key spec, plugin name and
transport-key flag — so in particular none of them can return a backend
or raise `SecretStoreSupportedPluginNotFound`. -/
theorem empty_extensions_plugins_not_configured (key_spec : KeySpec)
    (plugin_name : Option String) (transport_key_needed : Bool)
    (name : String) :
    get_plugin_store [] key_spec plugin_name transport_key_needed =
      Except.error BarbicanException.SecretStorePluginsNotConfigured ∧
    get_plugin_retrieve_delete [] name =
      Except.error BarbicanException.SecretStorePluginsNotConfigured ∧
    get_plugin_generate [] key_spec =
      Except.error BarbicanException.SecretStorePluginsNotConfigured :=
  ⟨rfl, rfl, rfl⟩

/-- C9: a backend that does not override the `SecretStoreBase` defaults
has `get_transport_key` equal to `none` and `is_transport_key_current`
equal to `false` on every transport key; both defaults are pure Lean
values, so they have no side effects. -/
theorem secret_store_base_transport_defaults (fullname : String)
    (store_s generate_s : KeySpec → Bool) :
    ({ fullname := fullname, store_secret_supports := store_s,
       generate_supports := generate_s } : SecretStore).get_transport_key
      = none ∧
    ∀ transport_key,
      ({ fullname := fullname, store_secret_supports := store_s,
         generate_supports := generate_s } :
        SecretStore).is_transport_key_current transport_key = false :=
  ⟨rfl, fun _ => rfl⟩

/-- C6 evaluation: the six genuine symmetric-family strings classify as
symmetric in either casing, but `"hmacsha384"` (HMAC-SHA384) classifies
as `none` in every casing, because the source list contains the typo
string `"hmacsha348"` instead — which the code does classify as
symmetric. -/
theorem hmacsha384_not_classified_symmetric :
    KeyAlgorithm.get_secret_type (some "AES") = some SecretType.SYMMETRIC ∧
    KeyAlgorithm.get_secret_type (some "des") = some SecretType.SYMMETRIC ∧
    KeyAlgorithm.get_secret_type (some "DESede") = some SecretType.SYMMETRIC ∧
    KeyAlgorithm.get_secret_type (some "HMACSHA1") = some SecretType.SYMMETRIC ∧
    KeyAlgorithm.get_secret_type (some "hmacsha256") = some SecretType.SYMMETRIC ∧
    KeyAlgorithm.get_secret_type (some "HMACSHA512") = some SecretType.SYMMETRIC ∧
    KeyAlgorithm.get_secret_type (some "hmacsha384") = none ∧
    KeyAlgorithm.get_secret_type (some "HMACSHA384") = none ∧
    KeyAlgorithm.get_secret_type (some "hmacsha348") = some SecretType.SYMMETRIC := by
  decide

/-- C7 evaluation: the string `"hmacsha348"` lies outside the spec's
symmetric family (it names no existing algorithm — the family has
HMAC-SHA384), so it is an unrecognized string, yet the code classifies
it as symmetric in any casing, because the source's typo list contains
it.  The four recognized asymmetric algorithms and a genuinely
unrecognized string do classify as `none`. -/
theorem hmacsha348_classified_symmetric :
    KeyAlgorithm.get_secret_type (some "hmacsha348") =
      some SecretType.SYMMETRIC ∧
    KeyAlgorithm.get_secret_type (some "HMACSHA348") =
      some SecretType.SYMMETRIC ∧
    KeyAlgorithm.get_secret_type (some "diffie_hellman") = none ∧
    KeyAlgorithm.get_secret_type (some "dsa") = none ∧
    KeyAlgorithm.get_secret_type (some "rsa") = none ∧
    KeyAlgorithm.get_secret_type (some "ec") = none ∧
    KeyAlgorithm.get_secret_type (some "unknown-alg") = none := by
  decide

/-- C8: when the requested algorithm is unrecognized by the
classification logic, the check raises
`SecretAlgorithmNotSupportedException` carrying the offending algorithm
string. -/
theorem unrecognized_algorithm_raises_not_supported (algorithm : String)
    (h : string_lower algorithm ∉ KeyAlgorithm.SYMMETRIC_ALGORITHMS) :
    check_algorithm_supported algorithm =
      Except.error
        (BarbicanException.SecretAlgorithmNotSupportedException algorithm) := by
  unfold check_algorithm_supported
  rw [get_secret_type_eq_none_of_not_mem algorithm h]

/-- Witness for C8 at the unrecognized algorithm string `"foo"`. -/
theorem unrecognized_algorithm_raises_not_supported_witness :
    check_algorithm_supported "foo" =
      Except.error
        (BarbicanException.SecretAlgorithmNotSupportedException "foo") :=
  unrecognized_algorithm_raises_not_supported "foo" (by decide)

/-! Selection-operation helper lemmas. -/

lemma get_plugin_store_body_named_ok_iff (extensions : List SecretStore)
    (key_spec : KeySpec) (name : String) (transport_key_needed : Bool)
    (ext : SecretStore) :
    get_plugin_store_body key_spec (some name) transport_key_needed
        extensions = Except.ok ext ↔
      extensions.find? (fun x => generate_fullname_for x == name) =
        some ext := by
  unfold get_plugin_store_body
  cases hf : extensions.find? (fun x => generate_fullname_for x == name) <;>
    simp [hf]

lemma get_plugin_store_body_transport_ok_iff (extensions : List SecretStore)
    (key_spec : KeySpec) (ext : SecretStore) :
    get_plugin_store_body key_spec none true extensions = Except.ok ext ↔
      extensions.find? (fun x =>
          x.get_transport_key.isSome && x.store_secret_supports key_spec) =
        some ext := by
  unfold get_plugin_store_body
  cases hf : extensions.find? (fun x =>
      x.get_transport_key.isSome && x.store_secret_supports key_spec) <;>
    simp [hf]

lemma get_plugin_generate_body_ok_iff (extensions : List SecretStore)
    (key_spec : KeySpec) (ext : SecretStore) :
    get_plugin_generate_body key_spec extensions = Except.ok ext ↔
      extensions.find? (fun x => x.generate_supports key_spec) = some ext := by
  unfold get_plugin_generate_body
  cases hf : extensions.find? (fun x => x.generate_supports key_spec) <;>
    simp [hf]

/-- C1: with a non-empty backend list and an explicit `plugin_name`,
`get_plugin_store` returns exactly the first registered backend whose
stable identity equals `plugin_name` — for every key spec and
transport-key flag, i.e. regardless of capability predicates — and if no
registered backend has that identity it raises
`SecretStorePluginNotFound`, again regardless of any capability. -/
theorem get_plugin_store_named_lookup (extensions : List SecretStore)
    (key_spec : KeySpec) (plugin_name : String) (transport_key_needed : Bool)
    (h : extensions ≠ []) :
    (∀ ext, get_plugin_store extensions key_spec (some plugin_name)
        transport_key_needed = Except.ok ext ↔
      generate_fullname_for ext = plugin_name ∧
      ∃ l1 l2, extensions = l1 ++ ext :: l2 ∧
        ∀ x ∈ l1, generate_fullname_for x ≠ plugin_name) ∧
    ((∀ ext ∈ extensions, generate_fullname_for ext ≠ plugin_name) →
      get_plugin_store extensions key_spec (some plugin_name)
        transport_key_needed =
        Except.error
          (BarbicanException.SecretStorePluginNotFound (some plugin_name))) := by
  rw [get_plugin_store_of_ne_nil _ _ _ _ h]
  constructor
  · intro ext
    rw [get_plugin_store_body_named_ok_iff, List.find?_eq_some]
    simp
  · intro hall
    have hf : extensions.find? (fun x => generate_fullname_for x == plugin_name)
        = none := by
      rw [List.find?_eq_none]
      intro x hx
      simpa using hall x hx
    simp only [get_plugin_store_body, hf]

/-- Witness for C1: with backends named `"one"` and `"two"`, asking for
`"two"` returns the second backend even though the first appears
earlier. -/
theorem get_plugin_store_named_lookup_witness :
    get_plugin_store [plugin_one, plugin_two] ks0 (some "two") false =
      Except.ok plugin_two :=
  ((get_plugin_store_named_lookup [plugin_one, plugin_two] ks0 "two" false
      (List.cons_ne_nil _ _)).1 plugin_two).mpr
    ⟨rfl, [plugin_one], [], rfl, by
      intro x hx
      rw [List.mem_singleton] at hx
      subst hx
      decide⟩

/-- C3: with a non-empty backend list, no explicit plugin name and
`transport_key_needed = True`, any backend that `get_plugin_store`
returns has a non-`none` transport key and supports storing the key
spec, and it is the first such backend in registration order: every
earlier backend lacks a transport key or fails the storage predicate.
In particular a backend whose `get_transport_key()` is `none` is never
returned. -/
theorem transport_key_needed_requires_transport_key
    (extensions : List SecretStore) (key_spec : KeySpec) (ext : SecretStore)
    (h : extensions ≠ [])
    (hok : get_plugin_store extensions key_spec none true = Except.ok ext) :
    ext.get_transport_key.isSome = true ∧
    ext.store_secret_supports key_spec = true ∧
    ∃ l1 l2, extensions = l1 ++ ext :: l2 ∧
      ∀ x ∈ l1, x.get_transport_key.isSome = false ∨
        x.store_secret_supports key_spec = false := by
  rw [get_plugin_store_of_ne_nil _ _ _ _ h,
    get_plugin_store_body_transport_ok_iff, List.find?_eq_some] at hok
  obtain ⟨hp, l1, l2, heq, hall⟩ := hok
  simp only [Bool.and_eq_true] at hp
  refine ⟨hp.1, hp.2, l1, l2, heq, ?_⟩
  intro x hx
  have hnx := hall x hx
  simp only [Bool.not_eq_eq_eq_not, Bool.not_true, Bool.and_eq_false_iff]
    at hnx
  exact hnx

/-- Witness for C3: between a transport-key-less backend and one with a
transport key, both supporting storage, the selection returns the
latter. -/
theorem transport_key_needed_requires_transport_key_witness :
    plugin_two.get_transport_key.isSome = true ∧
    plugin_two.store_secret_supports ks0 = true ∧
    ∃ l1 l2, [plugin_no_tk, plugin_two] = l1 ++ plugin_two :: l2 ∧
      ∀ x ∈ l1, x.get_transport_key.isSome = false ∨
        x.store_secret_supports ks0 = false :=
  transport_key_needed_requires_transport_key [plugin_no_tk, plugin_two]
    ks0 plugin_two (List.cons_ne_nil _ _) rfl

/-- C4: whenever backend `a` appears before backend `b` in registration
order and both satisfy the relevant capability predicate, the selection
(`get_plugin_store` without a name, and `get_plugin_generate`) returns a
backend occurring no later than `a` — never the later backend `b`. -/
theorem registration_order_first_match (l1 l2 l3 : List SecretStore)
    (a b : SecretStore) (key_spec : KeySpec) :
    (a.store_secret_supports key_spec = true →
      b.store_secret_supports key_spec = true →
      ∃ c, get_plugin_store (l1 ++ a :: (l2 ++ b :: l3)) key_spec none false =
          Except.ok c ∧ c ∈ l1 ++ [a] ∧
        c.store_secret_supports key_spec = true) ∧
    (a.generate_supports key_spec = true →
      b.generate_supports key_spec = true →
      ∃ c, get_plugin_generate (l1 ++ a :: (l2 ++ b :: l3)) key_spec =
          Except.ok c ∧ c ∈ l1 ++ [a] ∧
        c.generate_supports key_spec = true) := by
  have hne : l1 ++ a :: (l2 ++ b :: l3) ≠ [] := by simp
  constructor
  · intro ha _
    obtain ⟨c, hc1, hc2, hc3⟩ := find?_append_cons_of_pos
      (fun x => x.store_secret_supports key_spec) l1 (l2 ++ b :: l3) a ha
    refine ⟨c, ?_, hc2, hc3⟩
    rw [get_plugin_store_of_ne_nil _ _ _ _ hne]
    simp only [get_plugin_store_body, Bool.not_false, if_true, hc1]
  · intro ha _
    obtain ⟨c, hc1, hc2, hc3⟩ := find?_append_cons_of_pos
      (fun x => x.generate_supports key_spec) l1 (l2 ++ b :: l3) a ha
    refine ⟨c, ?_, hc2, hc3⟩
    rw [get_plugin_generate_of_ne_nil _ _ hne]
    simp only [get_plugin_generate_body, hc1]

/-- Witness for C4 with two all-capable backends: the first one wins for
both selection operations. -/
theorem registration_order_first_match_witness :
    (∃ c, get_plugin_store [plugin_both_one, plugin_both_two] ks0 none false =
        Except.ok c ∧ c ∈ [plugin_both_one] ∧
      c.store_secret_supports ks0 = true) ∧
    (∃ c, get_plugin_generate [plugin_both_one, plugin_both_two] ks0 =
        Except.ok c ∧ c ∈ [plugin_both_one] ∧
      c.generate_supports ks0 = true) :=
  ⟨(registration_order_first_match [] [] [] plugin_both_one plugin_both_two
      ks0).1 rfl rfl,
   (registration_order_first_match [] [] [] plugin_both_one plugin_both_two
      ks0).2 rfl rfl⟩

/-- C5: with a non-empty backend list, `get_plugin_generate` returns a
backend exactly when it is the first in registration order whose
`generate_supports` holds, and it raises
`SecretStoreSupportedPluginNotFound` exactly when no registered backend
supports generating the key spec. -/
theorem get_plugin_generate_first_supporting (extensions : List SecretStore)
    (key_spec : KeySpec) (h : extensions ≠ []) :
    (∀ ext, get_plugin_generate extensions key_spec = Except.ok ext ↔
      ext.generate_supports key_spec = true ∧
      ∃ l1 l2, extensions = l1 ++ ext :: l2 ∧
        ∀ x ∈ l1, x.generate_supports key_spec = false) ∧
    (get_plugin_generate extensions key_spec =
        Except.error BarbicanException.SecretStoreSupportedPluginNotFound ↔
      ∀ ext ∈ extensions, ext.generate_supports key_spec = false) := by
  rw [get_plugin_generate_of_ne_nil _ _ h]
  constructor
  · intro ext
    rw [get_plugin_generate_body_ok_iff, List.find?_eq_some]
    simp
  · unfold get_plugin_generate_body
    cases hf : extensions.find? (fun x => x.generate_supports key_spec) with
    | some c =>
      have hmem := List.mem_of_find?_eq_some hf
      have hp := List.find?_some hf
      constructor
      · intro hcontra
        exact absurd hcontra (by simp)
      · intro hall
        exact absurd (hall c hmem) (by simp [hp])
    | none =>
      rw [List.find?_eq_none] at hf
      constructor
      · intro _ x hx
        simpa using hf x hx
      · intro _
        rfl

/-- Witness for C5, the spec's scenario: backends `[A (rsa only),
B (aes only)]`; an `"aes"` request returns `B`, an `"ec"` request raises
`SecretStoreSupportedPluginNotFound`. -/
theorem get_plugin_generate_first_supporting_witness :
    get_plugin_generate [plugin_rsa_only, plugin_aes_only] key_spec_aes =
      Except.ok plugin_aes_only ∧
    get_plugin_generate [plugin_rsa_only, plugin_aes_only] key_spec_ec =
      Except.error BarbicanException.SecretStoreSupportedPluginNotFound :=
  ⟨((get_plugin_generate_first_supporting [plugin_rsa_only, plugin_aes_only]
        key_spec_aes (List.cons_ne_nil _ _)).1 plugin_aes_only).mpr
      ⟨rfl, [plugin_rsa_only], [], rfl, by
        intro x hx
        rw [List.mem_singleton] at hx
        subst hx
        decide⟩,
   (get_plugin_generate_first_supporting [plugin_rsa_only, plugin_aes_only]
        key_spec_ec (List.cons_ne_nil _ _)).2.mpr (by
      intro x hx
      rcases List.mem_cons.mp hx with h1 | h1
      · subst h1; decide
      · rw [List.mem_singleton] at h1
        subst h1; decide)⟩

/-- C10: if some registered backend has the requested identity, the named
lookup of `get_plugin_store` returns one fixed backend with that
identity, the same for every key spec and for both values of
`transport_key_needed` — the result is independent of the key spec and
of the transport-key requirement. -/
theorem named_lookup_key_spec_independent (extensions : List SecretStore)
    (plugin_name : String) (h : extensions ≠ [])
    (hmem : ∃ ext ∈ extensions, generate_fullname_for ext = plugin_name) :
    ∃ r, generate_fullname_for r = plugin_name ∧ r ∈ extensions ∧
      ∀ key_spec transport_key_needed,
        get_plugin_store extensions key_spec (some plugin_name)
          transport_key_needed = Except.ok r := by
  obtain ⟨e, he, hid⟩ := hmem
  have hsome : (extensions.find?
      (fun x => generate_fullname_for x == plugin_name)).isSome := by
    rw [List.find?_isSome]
    exact ⟨e, he, by simp [hid]⟩
  obtain ⟨r, hr⟩ := Option.isSome_iff_exists.mp hsome
  refine ⟨r, by simpa using List.find?_some hr,
    List.mem_of_find?_eq_some hr, ?_⟩
  intro key_spec transport_key_needed
  rw [get_plugin_store_of_ne_nil _ _ _ _ h]
  simp only [get_plugin_store_body, hr]

/-- Witness for C10: looking up `"one"` among two backends yields a fixed
result for every key spec and transport-key flag. -/
theorem named_lookup_key_spec_independent_witness :
    ∃ r, generate_fullname_for r = "one" ∧ r ∈ [plugin_one, plugin_two] ∧
      ∀ key_spec transport_key_needed,
        get_plugin_store [plugin_one, plugin_two] key_spec (some "one")
          transport_key_needed = Except.ok r :=
  named_lookup_key_spec_independent [plugin_one, plugin_two] "one"
    (List.cons_ne_nil _ _) ⟨plugin_one, by simp, rfl⟩
